import Mathlib

/-!
Verification development for the CarGurus scraping backend
(`backend/scraper/cargurus_scraper.py` and `backend/scraper/models.py`).

The scraper works on decoded JSON payloads (Python dicts/lists/strings/ints),
so we first build a small model `JVal` of such values together with the pieces
of Python semantics the code relies on: truthiness, `dict.get`, indexing,
iteration, `in`, `str()` formatting inside f-strings, and `str.strip`.
Python numbers are modelled as integers (`Int`); none of the verified
properties involves fractional values.  Exceptions are modelled by `Option`:
`none` means the Python code raised (every relevant call site catches the
exception and converts it to a `None`/empty result, which is where the
`Option` is eliminated).
-/

namespace CarLister

/-- A decoded JSON value, as handled by the scraper (Python object model
restricted to the shapes the code touches: `None`, `str`, `int`, `list`,
`dict` with string keys). -/
inductive JVal where
  | null
  | str (s : String)
  | int (n : Int)
  | arr (xs : List JVal)
  | obj (fields : List (String × JVal))
deriving Repr, Inhabited

mutual

def JVal.beq : JVal → JVal → Bool
  | .null, .null => true
  | .str a, .str b => a == b
  | .int a, .int b => a == b
  | .arr xs, .arr ys => JVal.beqL xs ys
  | .obj fs, .obj gs => JVal.beqO fs gs
  | _, _ => false

def JVal.beqL : List JVal → List JVal → Bool
  | [], [] => true
  | x :: xs, y :: ys => JVal.beq x y && JVal.beqL xs ys
  | _, _ => false

def JVal.beqO : List (String × JVal) → List (String × JVal) → Bool
  | [], [] => true
  | (k, v) :: xs, (l, w) :: ys => k == l && JVal.beq v w && JVal.beqO xs ys
  | _, _ => false

end

mutual

theorem JVal.beq_iff : ∀ a b : JVal, JVal.beq a b = true ↔ a = b
  | .null, .null => by simp [JVal.beq]
  | .null, .str _ => by simp [JVal.beq]
  | .null, .int _ => by simp [JVal.beq]
  | .null, .arr _ => by simp [JVal.beq]
  | .null, .obj _ => by simp [JVal.beq]
  | .str _, .null => by simp [JVal.beq]
  | .str _, .str _ => by simp [JVal.beq]
  | .str _, .int _ => by simp [JVal.beq]
  | .str _, .arr _ => by simp [JVal.beq]
  | .str _, .obj _ => by simp [JVal.beq]
  | .int _, .null => by simp [JVal.beq]
  | .int _, .str _ => by simp [JVal.beq]
  | .int _, .int _ => by simp [JVal.beq]
  | .int _, .arr _ => by simp [JVal.beq]
  | .int _, .obj _ => by simp [JVal.beq]
  | .arr _, .null => by simp [JVal.beq]
  | .arr _, .str _ => by simp [JVal.beq]
  | .arr _, .int _ => by simp [JVal.beq]
  | .arr xs, .arr ys => by simp [JVal.beq, JVal.beqL_iff xs ys]
  | .arr _, .obj _ => by simp [JVal.beq]
  | .obj _, .null => by simp [JVal.beq]
  | .obj _, .str _ => by simp [JVal.beq]
  | .obj _, .int _ => by simp [JVal.beq]
  | .obj _, .arr _ => by simp [JVal.beq]
  | .obj fs, .obj gs => by simp [JVal.beq, JVal.beqO_iff fs gs]

theorem JVal.beqL_iff : ∀ xs ys : List JVal, JVal.beqL xs ys = true ↔ xs = ys
  | [], [] => by simp [JVal.beqL]
  | [], _ :: _ => by simp [JVal.beqL]
  | _ :: _, [] => by simp [JVal.beqL]
  | x :: xs, y :: ys => by
      simp [JVal.beqL, JVal.beq_iff x y, JVal.beqL_iff xs ys]

theorem JVal.beqO_iff :
    ∀ xs ys : List (String × JVal), JVal.beqO xs ys = true ↔ xs = ys
  | [], [] => by simp [JVal.beqO]
  | [], _ :: _ => by simp [JVal.beqO]
  | _ :: _, [] => by simp [JVal.beqO]
  | (k, v) :: xs, (l, w) :: ys => by
      simp [JVal.beqO, JVal.beq_iff v w, JVal.beqO_iff xs ys, and_assoc]

end

instance : DecidableEq JVal := fun a b =>
  decidable_of_iff (JVal.beq a b = true) (JVal.beq_iff a b)

/-- Python truthiness (`bool(v)`) for the modelled value shapes. -/
def JVal.truthy : JVal → Bool
  | .null => false
  | .str s => s != ""
  | .int n => n != 0
  | .arr xs => !xs.isEmpty
  | .obj fs => !fs.isEmpty

/-- Python `str(v)` as used inside f-strings.  Faithful for the scalar shapes
(`None`, `str`, `int`) that the code actually formats; the container reprs are
abbreviated and no theorem depends on them. -/
def JVal.fmt : JVal → String
  | .null => "None"
  | .str s => s
  | .int n => toString n
  | .arr _ => "[...]"
  | .obj _ => "..."

/-- The fields of a value when it is a dict; `none` models the
`AttributeError`/`TypeError` raised when dict operations hit a non-dict. -/
def JVal.getObj : JVal → Option (List (String × JVal))
  | .obj fs => some fs
  | _ => none

/-- Lookup of a key in a (Python) dict, `none` when the key is absent. -/
def dGet (fs : List (String × JVal)) (k : String) : Option JVal :=
  (fs.find? (fun p => p.1 == k)).map (fun p => p.2)

/-- Python `d.get(k, dflt)` on a dict. -/
def dGetD (fs : List (String × JVal)) (k : String) (dflt : JVal) : JVal :=
  (dGet fs k).getD dflt

/-- Python `v[k]` with a string key: only dicts support it (`KeyError` on a
missing key and `TypeError` on a non-dict both surface as `none`). -/
def pyIndex (v : JVal) (k : String) : Option JVal := do
  let fs ← v.getObj
  dGet fs k

/-- Python iteration `for x in v`: lists yield elements, strings yield
1-character strings, dicts yield their keys; other shapes raise. -/
def pyIter : JVal → Option (List JVal)
  | .arr xs => some xs
  | .str s => some (s.toList.map (fun c => JVal.str (String.singleton c)))
  | .obj fs => some (fs.map (fun p => JVal.str p.1))
  | _ => none

/-- First index at which `pat` occurs in `hay` (Python `hay.find(pat)`),
working over character lists. -/
def subFind (pat : List Char) : List Char → Option Nat
  | [] => if pat.isPrefixOf ([] : List Char) then some 0 else none
  | c :: t =>
    if pat.isPrefixOf (c :: t) then some 0
    else (subFind pat t).map (fun n => n + 1)

/-- Substring test on strings (Python `needle in hay` for strings). -/
def strContainsSub (hay needle : String) : Bool :=
  (subFind needle.toList hay.toList).isSome

/-- A Python whitespace character (the ASCII set `str.strip` removes). -/
def pyIsSpace (c : Char) : Bool :=
  c = ' ' || c = '\t' || c = '\n' || c = '\r' || c = '\x0b' || c = '\x0c'

/-- Python `s.strip()` on a string: leading and trailing whitespace
removed. -/
def pyStripString (s : String) : String :=
  String.mk (((s.toList.dropWhile pyIsSpace).reverse.dropWhile
    pyIsSpace).reverse)

/-- Python `s.startswith(pre)` (also the effect of
`re.match(pre + ".*", s)` for a literal prefix). -/
def pyStartsWith (s pre : String) : Bool :=
  pre.toList.isPrefixOf s.toList

/-- Python `a in b` for the shapes the scraper uses: membership in a list,
substring test in a string, key test in a dict.  Raises (`none`) when `b`
does not support `in`, or for a string `b` with a non-string `a`. -/
def pyIn (a b : JVal) : Option Bool :=
  match b with
  | .str bs =>
    match a with
    | .str as0 => some (strContainsSub bs as0)
    | _ => none
  | .arr xs => some (xs.contains a)
  | .obj fs =>
    match a with
    | .str s => some (fs.any (fun p => p.1 == s))
    | .int _ => some false
    | _ => none
  | _ => none

/-- Python `v == n` for an int literal `n` (no exception: `==` across types
is just `False`). -/
def pyEqInt (v : JVal) (n : Int) : Bool :=
  match v with
  | .int m => m == n
  | _ => false

/-- Python `v > 0`; comparing a non-number with an int raises. -/
def pyGtZero (v : JVal) : Option Bool :=
  match v with
  | .int m => some (0 < m)
  | _ => none

/-- Python `v.strip()`: only strings support it. -/
def pyStrip (v : JVal) : Option String :=
  match v with
  | .str s => some (pyStripString s)
  | _ => none

/-- The test `not trim or trim.strip() == ""` (short-circuiting, so the
`strip` call — which raises on a non-string — runs only on truthy values). -/
def pyTrimEmpty (v : JVal) : Option Bool :=
  if v.truthy then do
    let s ← pyStrip v
    pure (s == "")
  else pure true

/-- The test `trim and trim.strip()` (truthy and non-blank). -/
def pyTrimNonempty (v : JVal) : Option Bool :=
  if v.truthy then do
    let s ← pyStrip v
    pure (s != "")
  else pure false

/-- Python `s.split(sep, 1)` for a non-empty separator: split only at the
first occurrence. -/
def pySplit1 (s sep : String) : List String :=
  match s.splitOn sep with
  | [] => [s]
  | [p] => [p]
  | p :: rest => [p, String.intercalate sep rest]

/-- A scraped vehicle record, mirroring `ScrapedCar` of
`backend/scraper/models.py` after pydantic validation (`scrapedAt`, a wall
clock timestamp, is omitted; it carries no verified content). -/
structure ScrapedCar where
  make : String
  model : String
  year : Int
  price : Int
  description : String
  features : List String
  stats : List (JVal × JVal)
  images : List String
  originalUrl : String
  fullTitle : String
deriving Repr, DecidableEq

/-- Pydantic `int` field coercion: ints pass, numeric strings coerce. -/
def intField (v : JVal) : Option Int :=
  match v with
  | .int n => some n
  | .str s => s.toInt?
  | _ => none

/-- Pydantic `str` field: only strings are accepted. -/
def strField (v : JVal) : Option String :=
  match v with
  | .str s => some s
  | _ => none

/-- Pydantic bound check on the `year` field (`ge=1900, le=2030`). -/
def yearBound (y : Int) : Option Unit :=
  if 1900 ≤ y ∧ y ≤ 2030 then some () else none

/-- Pydantic bound check on the `price` field (`ge=0`). -/
def priceBound (p : Int) : Option Unit :=
  if 0 ≤ p then some () else none

/-- Pydantic `List[str]` field: the value must be a list. -/
def listField (v : JVal) : Option (List JVal) :=
  match v with
  | .arr xs => some xs
  | _ => none

/-- Construction of a `ScrapedCar` (the pydantic model of
`backend/scraper/models.py`): `year` is bounded to `[1900, 2030]`, `price`
must be non-negative, `make`/`model`/`description`/`fullTitle` must be
strings, `features` must be a list of strings and `images` a list of
strings.  A failed validation raises, which every construction site catches
and turns into `None` — hence the `Option`. -/
def mkScrapedCar (make model year price description : JVal) (features : JVal)
    (stats : List (JVal × JVal)) (images : List JVal)
    (originalUrl : String) (fullTitle : JVal) : Option ScrapedCar := do
  let mk ← strField make
  let mo ← strField model
  let y ← intField year
  let _ ← yearBound y
  let p ← intField price
  let _ ← priceBound p
  let de ← strField description
  let fl ← listField features
  let fs ← fl.mapM strField
  let imgs ← images.mapM strField
  let ft ← strField fullTitle
  pure { make := mk, model := mo, year := y, price := p, description := de,
         features := fs, stats := stats, images := imgs,
         originalUrl := originalUrl, fullTitle := ft }

/-- The result of an inventory search, mirroring `InventorySearchResult` of
`backend/scraper/models.py` with its field defaults (`processingTime`, wall
clock time, omitted). -/
structure InvResult where
  success : Bool
  cars : List ScrapedCar := []
  totalResults : Int := 0
  currentPage : Int := 1
  totalPages : Int := 1
  hasNextPage : Bool := false
  hasPreviousPage : Bool := false
  message : Option String := none
  errorMessage : Option String := none
deriving Repr, DecidableEq

/-!
UrlIdentifier: `_extract_listing_id` and `_is_likely_not_listing_id`
(`cargurus_scraper.py` lines 653–751), modelled over character lists.
-/

/-- The value of a digit string (Python `int(candidate)` for an all-digit
candidate). -/
def digitsToNat (cs : List Char) : Nat :=
  cs.foldl (fun n c => 10 * n + (c.toNat - 48)) 0

/-- Regex search for a literal followed by one or more digits
(`re.search(lit + r"(\d+)", url)`), returning the captured digit run at the
first matching position. -/
def searchLitDigits (lit : List Char) : List Char → Option (List Char)
  | [] => none
  | c :: t =>
    if lit.isPrefixOf (c :: t) then
      let ds := ((c :: t).drop lit.length).takeWhile Char.isDigit
      if ds.isEmpty then searchLitDigits lit t else some ds
    else searchLitDigits lit t

/-- Regex search for `[?&]key=(\d+)`: a `?` or `&`, the key, `=`, then one or
more digits, at the first matching position. -/
def searchQParamDigits (key : List Char) : List Char → Option (List Char)
  | [] => none
  | c :: t =>
    if (c = '?' ∨ c = '&') ∧ (key ++ ['=']).isPrefixOf t then
      let ds := (t.drop (key.length + 1)).takeWhile Char.isDigit
      if ds.isEmpty then searchQParamDigits key t else some ds
    else searchQParamDigits key t

/-- The maximal digit runs of a character list, in order (what
`re.findall(r"(\d{6,})", url)` iterates over, before the length filter):
a digit followed by a digit extends the run the tail starts with, a digit
followed by a non-digit (or the end) is a singleton run. -/
def digitRuns : List Char → List (List Char)
  | [] => []
  | c :: t =>
    (let rest := digitRuns t
     if c.isDigit then
       match t with
       | d :: _ =>
         if d.isDigit then
           match rest with
           | r :: rs => (c :: r) :: rs
           | [] => [[c]]
         else [c] :: rest
       | [] => [[c]]
     else rest)

/-- `_is_likely_not_listing_id(candidate, url)`: rejects 4-digit year-shaped
values, 5-digit values repeated in a `zip=` parameter, and 10-digit values
with a nonzero leading digit (phone-number shape). -/
def is_likely_not_listing_id (candidate url : List Char) : Bool :=
  (candidate.length == 4 &&
    (1900 ≤ digitsToNat candidate && digitsToNat candidate ≤ 2030)) ||
  (candidate.length == 5 &&
    (subFind (("zip=".toList) ++ candidate) url).isSome) ||
  (candidate.length == 10 &&
    (match candidate with
     | d :: _ => "123456789".toList.contains d
     | [] => false))

/-- Pattern 1 of `_extract_listing_id`: the substring after the first
`listingId=`, cut at the first `&` anywhere after it, else at the first `#`,
else at the end of the URL; succeeds only if that slice is a non-empty digit
string. -/
def listingIdParamPattern (url : List Char) : Option (List Char) := do
  let i ← subFind ("listingId=".toList) url
  let rest := url.drop (i + 10)
  let stop := match subFind ['&'] rest with
    | some j => j
    | none => match subFind ['#'] rest with
      | some j => j
      | none => rest.length
  let v := rest.take stop
  if v ≠ [] ∧ v.all Char.isDigit then some v else none

/-- Patterns 2 and 3 of `_extract_listing_id` (`/listing=` and `#listing=`
markers): the slice after the marker up to the next `/` (or the end), which
must be a non-empty digit string. -/
def listingMarkerPattern (marker : List Char) (url : List Char) :
    Option (List Char) := do
  let i ← subFind marker url
  let rest := url.drop (i + marker.length)
  let stop := (subFind ['/'] rest).getD rest.length
  let v := rest.take stop
  if v ≠ [] ∧ v.all Char.isDigit then some v else none

/-- Pattern 6 of `_extract_listing_id`: the first run of 6 or more digits
that survives `_is_likely_not_listing_id`. -/
def digitRunPattern (url : List Char) : Option (List Char) :=
  ((digitRuns url).filter (fun r => 6 ≤ r.length)).find?
    (fun r => 6 ≤ r.length && !is_likely_not_listing_id r url)

/-- `_extract_listing_id` (lines 653–735): the ordered pattern cascade,
first success wins. -/
def extract_listing_id_chars (url : List Char) : Option (List Char) :=
  listingIdParamPattern url <|>
  listingMarkerPattern ("/listing=".toList) url <|>
  listingMarkerPattern ("#listing=".toList) url <|>
  searchLitDigits ("/l-".toList) url <|>
  searchLitDigits ("/listing/".toList) url <|>
  searchLitDigits ("/inventorylisting/".toList) url <|>
  searchQParamDigits ("id".toList) url <|>
  searchQParamDigits ("listing".toList) url <|>
  searchQParamDigits ("inventoryId".toList) url <|>
  digitRunPattern url

/-- `_extract_listing_id` on a URL string. -/
def extract_listing_id (url : String) : Option String :=
  (extract_listing_id_chars url.toList).map (fun cs => String.mk cs)

/-!
DetailExtractor: `_extract_features_from_json`, `_extract_stats_from_json`,
`_extract_images_from_json` and `_extract_car_data_from_json`
(`cargurus_scraper.py` lines 801–996).
-/

/-- Python `len(v)` for sized values; raises on numbers and `None`. -/
def pyLen : JVal → Option Nat
  | .arr xs => some xs.length
  | .str s => some s.length
  | .obj fs => some fs.length
  | _ => none

/-- `_extract_features_from_json` (lines 884–916): the listing's options,
plus comma-split tokens after the `[!@@Additional Info@@!]` marker in the
description, plus synthesized spec strings, with a sentinel when empty. -/
def extract_features_from_json (listing : List (String × JVal)) :
    Option (List JVal) := do
  let fromOptions ← pyIter (dGetD listing "options" (.arr []))
  let description := dGetD listing "description" (.str "")
  let fromDesc ← (if description.truthy then do
      let s ← strField description
      match s.splitOn "[!@@Additional Info@@!]" with
      | _ :: p1 :: _ =>
        pure ((((p1.splitOn ",").map pyStripString).filter
          (fun f => f ≠ "")).map JVal.str)
      | _ => pure ([] : List JVal)
    else pure ([] : List JVal))
  let spec (key label : String) : List JVal :=
    (let v := dGetD listing key .null
     if v.truthy then [JVal.str (label ++ ": " ++ v.fmt)] else [])
  let fs := fromOptions ++ fromDesc ++
    spec "localizedTransmission" "Transmission" ++
    spec "localizedDriveTrain" "Drivetrain" ++
    spec "localizedEngineDisplayName" "Engine" ++
    spec "mileageString" "Mileage"
  pure (if fs.isEmpty then [JVal.str "Features not available"] else fs)

/-- One category of `listingDetailStatsSectionDto`: a header row when the
category has items and a name, the item rows, then an options header and one
checkmark row per option name. -/
def statsOfCategory (category : JVal) : Option (List (JVal × JVal)) :=
  match category.getObj with
  | none => some []
  | some c => do
    let category_name := dGetD c "categoryName" (.str "")
    let items := dGetD c "items" (.arr [])
    let options_list := dGetD c "optionsList" (.arr [])
    let header ← (if items.truthy ∧ category_name.truthy then do
        let n ← pyLen items
        pure [((JVal.str ("📋 " ++ category_name.fmt)),
               (JVal.str (toString n ++ " items")))]
      else pure ([] : List (JVal × JVal)))
    let itemRows ← (if items.truthy then do
        let xs ← pyIter items
        pure (xs.foldr (fun item acc =>
          match item.getObj with
          | some f =>
            (let label := dGetD f "label" (.str "")
             let dv := dGetD f "displayValue" (.str "")
             if label.truthy ∧ dv.truthy then (label, dv) :: acc else acc)
          | none => acc) [])
      else pure ([] : List (JVal × JVal)))
    let optRows ← (if options_list.truthy ∧ category_name.truthy then do
        let xs ← pyIter options_list
        let names := xs.foldr (fun opt acc =>
          match opt.getObj with
          | some f =>
            (let nm := dGetD f "name" (.str "")
             if nm.truthy then nm :: acc else acc)
          | none => acc) []
        if names.isEmpty then pure ([] : List (JVal × JVal)) else do
          let nmStrs ← names.mapM strField
          pure (((JVal.str ("🔧 " ++ category_name.fmt ++ " Options")),
                 (JVal.str (toString names.length ++ " options"))) ::
                nmStrs.map (fun nm => ((JVal.str ("  • " ++ nm)),
                                       (JVal.str "✓"))))
      else pure ([] : List (JVal × JVal)))
    pure (header ++ itemRows ++ optRows)

/-- `_extract_stats_from_json` (lines 918–979): flattens the category tree;
its own `try` turns any failure into an empty list. -/
def extract_stats_from_json (listing : List (String × JVal)) :
    List (JVal × JVal) :=
  (match dGetD listing "listingDetailStatsSectionDto" (.arr []) with
   | .arr cats => (cats.mapM statsOfCategory).map List.flatten
   | _ => some []).getD []

def placeholderImageUrl : String :=
  "https://images.unsplash.com/photo-1549317661-bd32c8ce0db2?w=800&h=600&fit=crop"

/-- The deduplicating append of `_extract_images_from_json`
(`if url and url not in images: images.append(url)`). -/
def appendImage (acc : List JVal) (url : JVal) : List JVal :=
  if url.truthy ∧ url ∉ acc then acc ++ [url] else acc

/-- The picture loop of `_extract_images_from_json`: for each picture,
`picture.get("url")` (raising on a non-dict picture) is appended when truthy
and not already collected. -/
def collectImages (acc : List JVal) : List JVal → Option (List JVal)
  | [] => some acc
  | p :: ps => do
    let f ← p.getObj
    collectImages (appendImage acc (dGetD f "url" .null)) ps

/-- `_extract_images_from_json` (lines 981–996): picture URLs de-duplicated
in first-seen order, with a placeholder when none are found. -/
def extract_images_from_json (listing : List (String × JVal)) :
    Option (List JVal) := do
  let ps ← pyIter (dGetD listing "pictures" (.arr []))
  let collected ← collectImages [] ps
  pure (if collected.isEmpty then [JVal.str placeholderImageUrl] else collected)

/-- The three-tier trim resolution of `_extract_car_data_from_json`
(lines 824–840): explicit `trim` field, then the remainder of
`listingTitleOnly` after the model name, then `trimName`. -/
def resolve_trim (listing auto0 : List (String × JVal)) : Option JVal := do
  let trim0 := dGetD auto0 "trim" (.str "")
  let c1 ← pyTrimEmpty trim0
  let trim1 ← (if c1 then do
      let listing_title := dGetD listing "listingTitleOnly" (.str "")
      if listing_title.truthy then do
        let model_name := dGetD listing "modelName" (.str "")
        if model_name.truthy then do
          let inTitle ← pyIn model_name listing_title
          if inTitle then do
            let lt ← strField listing_title
            let mn ← strField model_name
            match pySplit1 lt mn with
            | _ :: p1 :: _ =>
              (let potential := pyStripString p1
               if potential ≠ "" then pure (JVal.str potential) else pure trim0)
            | _ => pure trim0
          else pure trim0
        else pure trim0
      else pure trim0
    else pure trim0)
  let c2 ← pyTrimEmpty trim1
  pure (if c2 then dGetD listing "trimName" (.str "") else trim1)

/-- The validity check `not make or not model or year == 0` shared by
`_extract_car_data_from_json` (line 861) and
`_extract_car_from_ajax_tile_data` (line 1571): `none` when the record is
rejected. -/
def checkBasicInfo (make model year : JVal) : Option Unit :=
  if !make.truthy || !model.truthy || pyEqInt year 0 then none else some ()

/-- A plain boolean guard (`if c: ... else: skip`). -/
def boolGuard (b : Bool) : Option Unit :=
  if b then some () else none

/-- `_extract_car_data_from_json` (lines 801–882): year/make/model from
`autoEntityInfo` with top-level fallbacks, the trim cascade, the stripped
f-string title, and the `not make or not model or year == 0` validation.
Any exception and the pydantic validation of `ScrapedCar` also yield
`None`. -/
def extract_car_data_from_json (json_data : JVal) (url : String) :
    Option ScrapedCar := do
  let jd ← json_data.getObj
  let listing ← (dGetD jd "listing" (.obj [])).getObj
  let auto0 ← (dGetD listing "autoEntityInfo" (.obj [])).getObj
  let year := (dGet auto0 "year").getD (dGetD listing "year" (.int 0))
  let make := (dGet auto0 "make").getD (dGetD listing "makeName" (.str "Unknown"))
  let model := (dGet auto0 "model").getD (dGetD listing "modelName" (.str "Unknown"))
  let trim ← resolve_trim listing auto0
  let useTrim ← pyTrimNonempty trim
  let fullTitle := if useTrim then
      pyStripString (year.fmt ++ " " ++ make.fmt ++ " " ++ model.fmt ++
        " " ++ trim.fmt)
    else pyStripString (year.fmt ++ " " ++ make.fmt ++ " " ++ model.fmt)
  let price := dGetD listing "price" (.int 0)
  let description := dGetD listing "description" (.str "No description available.")
  let features ← extract_features_from_json listing
  let stats := extract_stats_from_json listing
  let images ← extract_images_from_json listing
  let _ ← checkBasicInfo make model year
  mkScrapedCar make model year price description (.arr features) stats images
    url (.str fullTitle)

/-!
SearchExtractor, generic JSON path: `_extract_cars_from_json_response` and
`_extract_car_from_json_tile` (lines 998–1158).
-/

/-- The detail URL built for a search-tile listing id. -/
def vdpUrlGeneric (listing_id : String) : String :=
  "https://www.cargurus.com/Cars/inventorylisting/vdp.action?listingId=" ++
  listing_id ++ "&entitySelectingHelper.selectedEntity=m6#listing=" ++
  listing_id ++ "/NONE/DEFAULT"

/-- `_extract_car_from_json_tile` (lines 1074–1158): tile fields with
`Unknown`/2024 defaults, no validity check, and no stats. -/
def extract_car_from_json_tile (tile_data : JVal) : Option ScrapedCar := do
  let d ← tile_data.getObj
  let make := dGetD d "makeName" (.str "Unknown")
  let model := dGetD d "modelName" (.str "Unknown")
  let year := dGetD d "carYear" (.int 2024)
  let price := dGetD d "price" (.int 0)
  let title0 := dGetD d "listingTitle" (.str "")
  let title := if title0.truthy then title0
    else JVal.str (year.fmt ++ " " ++ make.fmt ++ " " ++ model.fmt)
  let features := dGetD d "options" (.arr [])
  let opd := dGetD d "originalPictureData" (.obj [])
  let images0 : List JVal :=
    match opd.getObj with
    | some f =>
      if opd.truthy then
        (let image_url := dGetD f "url" (.str "")
         if image_url.truthy then [image_url] else [])
      else []
    | none => []
  let images := if images0.isEmpty then [JVal.str placeholderImageUrl] else images0
  let listing_id := dGetD d "id" (.str "")
  let original_url := if listing_id.truthy then vdpUrlGeneric listing_id.fmt
    else "https://www.cargurus.com/Cars"
  mkScrapedCar make model year price title features [] images original_url title

/-- The per-tile step of `_extract_cars_from_json_response` (lines
1021–1065): tiles whose type starts with `LISTING_` are candidates, `MERCH`
tiles only with a car-identifying key in their data (short-circuiting
`any`); extraction runs only on candidates with truthy data, and a tile
failure of any kind skips just that tile. -/
def processJsonTile (tile : JVal) : Option ScrapedCar :=
  match tile.getObj with
  | none => none
  | some tf => do
    let tile_type := dGetD tf "type" (.str "")
    let tile_data := dGetD tf "data" (.obj [])
    let isListing ← (do
        let m ← strField tile_type
        if pyStartsWith m "LISTING_" then pure true
        else if m == "MERCH" ∧ tile_data.truthy then do
          let b1 ← pyIn (.str "makeName") tile_data
          if b1 then pure true else do
          let b2 ← pyIn (.str "modelName") tile_data
          if b2 then pure true else pyIn (.str "carYear") tile_data
        else pure false)
    let _ ← boolGuard (isListing && tile_data.truthy)
    extract_car_from_json_tile tile_data

/-- `_extract_cars_from_json_response` (lines 998–1072): iterates the
`tiles` array; failures outside the per-tile handler yield the cars found
so far (the empty list). -/
def extract_cars_from_json_response (json_data : JVal) : List ScrapedCar :=
  (do
    let hasTiles ← pyIn (.str "tiles") json_data
    if !hasTiles then pure ([] : List ScrapedCar) else do
    let tilesV ← pyIndex json_data "tiles"
    let tiles ← pyIter tilesV
    pure (tiles.filterMap processJsonTile)).getD []

/-!
SearchExtractor, dealer AJAX path: `_extract_cars_from_ajax_json` and
`_extract_car_from_ajax_tile_data` (lines 1455–1593), and
`_extract_total_cars_from_ajax_response` (lines 1805–1845).
-/

def vdpUrlDealer (listing_id dealer : String) : String :=
  "https://www.cargurus.com/Cars/inventorylisting/vdp.action?listingId=" ++
  listing_id ++ "&entitySelectingHelper.selectedEntity=sp" ++ dealer ++
  "#listing=" ++ listing_id ++ "/NONE/DEFAULT"

def vdpUrlNoDealer (listing_id : String) : String :=
  "https://www.cargurus.com/Cars/inventorylisting/vdp.action?listingId=" ++
  listing_id ++ "#listing=" ++ listing_id ++ "/NONE/DEFAULT"

/-- `_extract_car_from_ajax_tile_data` (lines 1495–1593): tile fields with
empty defaults, the synthetic `Condition` stat row keyed on the tile type,
further stat rows, the stripped title, and the
`not make or not model or year == 0` validation.  (`vin` and `stockNumber`
are read by the code but never stored.)  The success log line formats the
price with a numeric format spec, so a non-numeric price raises and the
tile yields `None`. -/
def extract_car_from_ajax_tile_data (car_data : JVal)
    (dealer_entity_id : String) (tile_type : JVal) : Option ScrapedCar := do
  let d ← car_data.getObj
  let make := dGetD d "makeName" (.str "")
  let model := dGetD d "modelName" (.str "")
  let year := dGetD d "carYear" (.int 0)
  let price := dGetD d "price" (.int 0)
  let listing_id := dGetD d "id" (.str "")
  let description0 := dGetD d "listingTitle" (.str "")
  let description := if description0.truthy then description0
    else JVal.str (year.fmt ++ " " ++ make.fmt ++ " " ++ model.fmt)
  let features := dGetD d "options" (.arr [])
  let condRows : List (JVal × JVal) :=
    if tile_type == JVal.str "LISTING_NEW_STANDARD" then
      [(JVal.str "Condition", JVal.str "New")]
    else if tile_type == JVal.str "LISTING_USED_STANDARD" then
      [(JVal.str "Condition", JVal.str "Used")]
    else []
  let statRow (key header : String) : List (JVal × JVal) :=
    (let v := dGetD d key (.str "")
     if v.truthy then [(JVal.str header, v)] else [])
  let stats := condRows ++ statRow "mileageString" "Mileage" ++
    statRow "localizedTransmission" "Transmission" ++
    statRow "localizedDriveTrain" "Drivetrain" ++
    statRow "localizedFuelType" "Fuel Type" ++
    statRow "localizedEngineDisplayName" "Engine"
  let op := dGetD d "originalPictureData" (.obj [])
  let images ← (if op.truthy then do
      let f ← op.getObj
      let u := dGetD f "url" .null
      pure (if u.truthy then [u] else [])
    else pure ([] : List JVal))
  let trim := dGetD d "trimName" (.str "")
  let useTrim ← pyTrimNonempty trim
  let full_title := if useTrim then
      pyStripString (year.fmt ++ " " ++ make.fmt ++ " " ++ model.fmt ++
        " " ++ trim.fmt)
    else pyStripString (year.fmt ++ " " ++ make.fmt ++ " " ++ model.fmt)
  let original_url := if listing_id.truthy ∧ dealer_entity_id ≠ "" then
      vdpUrlDealer listing_id.fmt dealer_entity_id
    else if listing_id.truthy then vdpUrlNoDealer listing_id.fmt
    else ""
  let _ ← checkBasicInfo make model year
  let _ ← (match price with | .int _ => some () | _ => none : Option Unit)
  mkScrapedCar make model year price description features stats images
    original_url (.str full_title)

/-- The per-tile step of `_extract_cars_from_ajax_json` (lines 1467–1486):
only tiles of type exactly `LISTING_USED_STANDARD` or `LISTING_NEW_STANDARD`
are extracted; `MERCH` tiles and every other type are skipped. -/
def processAjaxTile (dealer_entity_id : String) (tile : JVal) :
    Option ScrapedCar := do
  let tf ← tile.getObj
  let ty := dGetD tf "type" .null
  let _ ← boolGuard (ty == JVal.str "LISTING_USED_STANDARD" ||
    ty == JVal.str "LISTING_NEW_STANDARD")
  extract_car_from_ajax_tile_data (dGetD tf "data" (.obj []))
    dealer_entity_id (dGetD tf "type" (.str ""))

/-- `_extract_cars_from_ajax_json` (lines 1455–1493). -/
def extract_cars_from_ajax_json (json_data : JVal)
    (dealer_entity_id : String) : List ScrapedCar :=
  (do
    let jd ← json_data.getObj
    let tiles ← pyIter (dGetD jd "tiles" (.arr []))
    pure (tiles.filterMap (processAjaxTile dealer_entity_id))).getD []

/-- `_extract_total_cars_from_ajax_response` (lines 1805–1845) on the parsed
AJAX JSON: the top-level `totalListings` when positive, else the
`srpTrackingData.defaultSRPListingCount.totalListings` fallback, else 0
(any exception also yields 0). -/
def extract_total_cars_from_ajax_response (json_data : JVal) : Int :=
  (do
    let jd ← json_data.getObj
    let tl := dGetD jd "totalListings" (.int 0)
    let gt ← pyGtZero tl
    if gt then (match tl with | .int n => some n | _ => none)
    else if jd.any (fun p => p.1 == "srpTrackingData") then do
      let srp ← dGet jd "srpTrackingData"
      let b ← pyIn (.str "defaultSRPListingCount") srp
      if b then do
        let cd ← pyIndex srp "defaultSRPListingCount"
        let cdf ← cd.getObj
        let tl2 := dGetD cdf "totalListings" (.int 0)
        let gt2 ← pyGtZero tl2
        if gt2 then (match tl2 with | .int n => some n | _ => none)
        else pure 0
      else pure 0
    else pure 0).getD 0

/-!
Fetcher and result assembly: `_fetch_json_data` (lines 753–799),
`search_inventory` (lines 89–267) and `scrape_dealer_page` (lines 269–446).
Network attempts are modelled as a function from the attempt index to the
observed outcome; the second component of a loop's result is the list of
backoff sleeps (in seconds) that were performed.
-/

/-- What one attempt of `_fetch_json_data` observes: a timeout/transport
error, or a response with a status code and (for status 200) the result of
parsing the body as JSON (`none` = `JSONDecodeError`). -/
inductive DetailAttempt where
  | netFail
  | resp (status : Nat) (body : Option JVal)

/-- One iteration of the `_fetch_json_data` retry loop: returns the payload
only on a 200 response whose body parses and contains a `listing` key; a
non-200 status, a timeout or transport error, an unparsable body, and a
parsed body without `listing` all fail the attempt. -/
def detailStep (att : DetailAttempt) : Option JVal :=
  match att with
  | .netFail => none
  | .resp status body =>
    if status = 200 then
      match body with
      | some j =>
        match pyIn (.str "listing") j with
        | some true => some j
        | _ => none
      | none => none
    else none

/-- The shared retry skeleton (`for attempt in range(3)` with
`time.sleep(2 ** attempt)` before every attempt except after the last):
`step i = some r` returns `r` immediately; otherwise the loop sleeps
`2 ^ i` seconds when more attempts remain, and yields `failed` after the
final attempt. -/
def attemptLoop {α : Type} (step : Nat → Option α) (failed : α) :
    List Nat → α × List Nat
  | [] => (failed, [])
  | i :: rest =>
    match step i with
    | some r => (r, [])
    | none =>
      if rest.isEmpty then (failed, [])
      else
        (let p := attemptLoop step failed rest
         (p.1, ((2 : Nat) ^ i) :: p.2))

/-- `_fetch_json_data`: 3 attempts, exponential backoff, `None` after
exhaustion. -/
def fetch_json_data (attempts : Nat → DetailAttempt) :
    Option JVal × List Nat :=
  attemptLoop (fun i => (detailStep (attempts i)).map some) none [0, 1, 2]

/-- The body of a `search_inventory` response: a JSON content type with the
result of parsing it (`none` = `JSONDecodeError`), or a non-JSON content
type with the cars extracted by `_extract_cars_from_search_page` (that
helper nests further network calls, so its outcome is a parameter of the
model). -/
inductive SearchBody where
  | jsonBody (parsed : Option JVal)
  | htmlBody (cars : List ScrapedCar)

/-- What one attempt of the `search_inventory` loop observes. -/
inductive SearchAttempt where
  | netFail
  | resp (status : Nat) (body : SearchBody)

/-- The successful result built by `search_inventory` (lines 185–196 and
222–233): the total is always estimated as 20 per extracted car; the
payload's own count fields are not consulted, and `hasNextPage` /
`hasPreviousPage` are left at their `False` defaults. -/
def searchSuccess (cars : List ScrapedCar) (pageNumber : Int) : InvResult :=
  let total_results : Int := cars.length * 20
  { success := true, cars := cars, totalResults := total_results,
    currentPage := pageNumber,
    totalPages := max 1 ((total_results + 19) / 20) }

def searchNoCars : InvResult :=
  { success := false,
    errorMessage := some "No cars found for the specified search criteria" }

def searchParseFail : InvResult :=
  { success := false,
    errorMessage := some "Failed to parse JSON response" }

def searchExhausted : InvResult :=
  { success := false,
    errorMessage := some "Failed to search inventory after multiple attempts" }

/-- One iteration of the `search_inventory` retry loop (lines 159–251):
every 200 response terminates the loop — with a success result when cars
were extracted, and with a terminal failure result when the JSON body does
not parse or no cars were found; only a non-200 status, a timeout, or a
transport error lets the loop retry. -/
def searchStep (att : SearchAttempt) (pageNumber : Int) : Option InvResult :=
  match att with
  | .netFail => none
  | .resp status body =>
    if status = 200 then
      match body with
      | .jsonBody parsed =>
        match parsed with
        | some j =>
          (let cars := extract_cars_from_json_response j
           if cars.isEmpty then some searchNoCars
           else some (searchSuccess cars pageNumber))
        | none => some searchParseFail
      | .htmlBody cars =>
        if cars.isEmpty then some searchNoCars
        else some (searchSuccess cars pageNumber)
    else none

/-- `search_inventory`: the retry loop with exponential backoff around
`searchStep`, returning the exhaustion failure after 3 failed attempts. -/
def search_inventory (attempts : Nat → SearchAttempt) (pageNumber : Int) :
    InvResult × List Nat :=
  attemptLoop (fun i => searchStep (attempts i) pageNumber)
    searchExhausted [0, 1, 2]

/-- The failure results of `scrape_dealer_page`: `success=False`, no cars,
`totalPages=0`, and the remaining fields at their defaults. -/
def dealerFail (pageNumber : Int) (msg : String) : InvResult :=
  { success := false, cars := [], totalResults := 0,
    currentPage := pageNumber, totalPages := 0, hasNextPage := false,
    message := some msg }

/-- The cars delivered by `_extract_cars_from_ajax_response` (lines
1393–1453): the JSON tile extraction when the body parsed and produced cars,
else the BeautifulSoup fallbacks (which depend on the raw text and are a
parameter of the model). -/
def dealer_cars (ajaxJson : Option JVal) (fallbackCars : List ScrapedCar)
    (dealer_entity_id : String) : List ScrapedCar :=
  match ajaxJson with
  | some j =>
    (let cs := extract_cars_from_ajax_json j dealer_entity_id
     if cs.isEmpty then fallbackCars else cs)
  | none => fallbackCars

/-- `scrape_dealer_page` (lines 269–446): the two-step dealer protocol and
result assembly.  `initialStatus` is the status of the landing-page fetch,
`paramsOk` whether `_extract_search_params_from_dealer_page` succeeded,
`ajaxStatus` the status of the AJAX fetch, `ajaxJson` the result of parsing
the AJAX body as JSON, and `fallbackCars` the outcome of the
HTML-soup fallbacks on that body.  With a positive extracted total the
pagination uses the dealer page size 23 and `hasNextPage = page < pages`;
otherwise an estimated total of twice the cars found is used and
`hasNextPage = (23 ≤ cars)`. -/
def scrape_dealer_page (initialStatus : Nat) (paramsOk : Bool)
    (ajaxStatus : Nat) (ajaxJson : Option JVal)
    (fallbackCars : List ScrapedCar) (dealer_entity_id : String)
    (pageNumber : Int) : InvResult :=
  if initialStatus ≠ 200 then
    dealerFail pageNumber
      ("Failed to get initial dealer page: HTTP " ++ toString initialStatus)
  else if !paramsOk then
    dealerFail pageNumber "Failed to extract search parameters from dealer page"
  else if ajaxStatus ≠ 200 then
    dealerFail pageNumber ("AJAX request failed: HTTP " ++ toString ajaxStatus)
  else
    let cars := dealer_cars ajaxJson fallbackCars dealer_entity_id
    if cars.isEmpty then dealerFail pageNumber "No cars found in AJAX response"
    else
      let total_cars := match ajaxJson with
        | some j => extract_total_cars_from_ajax_response j
        | none => 0
      if 0 < total_cars then
        let total_pages : Int := max 1 ((total_cars + 22) / 23)
        { success := true, cars := cars, totalResults := total_cars,
          currentPage := pageNumber, totalPages := total_pages,
          hasNextPage := decide (pageNumber < total_pages),
          message := some ("Successfully scraped " ++ toString cars.length ++
            " cars from dealer page " ++ toString pageNumber ++
            " (Total: " ++ toString total_cars ++ ")") }
      else
        let estimated_total : Int := cars.length * 2
        { success := true, cars := cars, totalResults := cars.length,
          currentPage := pageNumber,
          totalPages := max 1 ((estimated_total + 22) / 23),
          hasNextPage := decide (23 ≤ cars.length),
          message := some ("Successfully scraped " ++ toString cars.length ++
            " cars from dealer page " ++ toString pageNumber ++
            " (estimated total)") }

/-!
Shared inversion lemmas about the record constructor and the guards.
-/

theorem yearBound_inv {y : Int} {u : Unit} (h : yearBound y = some u) :
    1900 ≤ y ∧ y ≤ 2030 := by
  by_cases hc : 1900 ≤ y ∧ y ≤ 2030
  · exact hc
  · simp [yearBound, hc] at h

theorem checkBasicInfo_inv {make model year : JVal} {u : Unit}
    (h : checkBasicInfo make model year = some u) :
    make.truthy = true ∧ model.truthy = true ∧ pyEqInt year 0 = false := by
  cases hm : make.truthy <;> cases hmo : model.truthy <;>
    cases hye : pyEqInt year 0 <;> simp [checkBasicInfo, hm, hmo, hye] at h ⊢

theorem boolGuard_inv {b : Bool} {u : Unit} (h : boolGuard b = some u) :
    b = true := by
  by_cases hc : b = true
  · exact hc
  · simp [boolGuard, hc] at h

theorem strField_truthy {v : JVal} {s : String}
    (h : strField v = some s) (ht : v.truthy = true) : s ≠ "" := by
  cases v <;> simp [strField] at h
  subst h
  simpa [JVal.truthy] using ht

theorem mkScrapedCar_inv (make model year price description : JVal)
    (features : JVal) (stats : List (JVal × JVal)) (images : List JVal)
    (originalUrl : String) (fullTitle : JVal) (car : ScrapedCar)
    (h : mkScrapedCar make model year price description features stats images
      originalUrl fullTitle = some car) :
    strField make = some car.make ∧ strField model = some car.model ∧
    intField year = some car.year ∧ 1900 ≤ car.year ∧ car.year ≤ 2030 ∧
    strField fullTitle = some car.fullTitle ∧ car.stats = stats ∧
    car.originalUrl = originalUrl := by
  simp only [mkScrapedCar, bind, Option.bind_eq_some, Option.pure_def,
    Option.some.injEq] at h
  obtain ⟨mk, hmk, mo, hmo, y, hy, u1, hu1, p, hp, u2, hu2, de, hde, fl, hfl,
    fs, hfs, imgs, himgs, ft, hft, hcar⟩ := h
  subst hcar
  obtain ⟨h1, h2⟩ := yearBound_inv hu1
  exact ⟨hmk, hmo, hy, h1, h2, hft, rfl, rfl⟩

/-!
Claim C1.
-/

/-- C1 counterexample input: a detail payload whose listing resolves only a
year, so make and model both fall back to the `Unknown` sentinel. -/
def c1Payload : JVal := .obj [("listing", .obj [("year", .int 2020)])]

/-- The record `_extract_car_data_from_json` produces from `c1Payload`. -/
def c1Car : ScrapedCar :=
  { make := "Unknown", model := "Unknown", year := 2020, price := 0,
    description := "No description available.",
    features := ["Features not available"], stats := [],
    images := [placeholderImageUrl],
    originalUrl := "http://listing.example",
    fullTitle := "2020 Unknown Unknown" }

/-- C1 (counterexample): `_extract_car_data_from_json` emits — rather than
discards — a record whose make and model are both the `Unknown` sentinel:
the validation only rejects empty values and `year == 0`, and `"Unknown"`
is a non-empty string. -/
theorem c1_unknown_sentinel_emitted :
    (extract_car_data_from_json c1Payload "http://listing.example").map
      (fun c => (c.make, c.model)) = some ("Unknown", "Unknown") := by
  decide

/-- C1 (amended): the two validating extractors reject a record exactly by
the `not make or not model or year == 0` test (plus the pydantic model
validation), so every emitted record has a non-empty make and model and a
non-zero year; the `Unknown` sentinel is a non-empty string and passes
(counterexample), and the generic JSON-tile extractor performs no validity
check at all — it can even emit an empty make (third conjunct). -/
theorem c1_validation_rule :
    (∀ (j : JVal) (url : String) (car : ScrapedCar),
      extract_car_data_from_json j url = some car →
      car.make ≠ "" ∧ car.model ≠ "" ∧ car.year ≠ 0) ∧
    (∀ (d : JVal) (dealer : String) (ty : JVal) (car : ScrapedCar),
      extract_car_from_ajax_tile_data d dealer ty = some car →
      car.make ≠ "" ∧ car.model ≠ "" ∧ car.year ≠ 0) ∧
    ((extract_car_from_json_tile (.obj [("makeName", .str "")])).map
      (fun c => c.make) = some "") := by
  refine ⟨?_, ?_, by decide⟩
  · intro j url car h
    simp only [extract_car_data_from_json, bind, Option.bind_eq_some] at h
    obtain ⟨jd, hjd, listing, hl, auto0, ha, trim, htr, useTrim, hut,
      features, hf, images, hi, u, hchk, hmk⟩ := h
    obtain ⟨ht1, ht2, ht3⟩ := checkBasicInfo_inv hchk
    obtain ⟨hm1, hm2, _, hy1, _, _, _, _⟩ :=
      mkScrapedCar_inv _ _ _ _ _ _ _ _ _ _ _ hmk
    exact ⟨strField_truthy hm1 ht1, strField_truthy hm2 ht2, by omega⟩
  · intro d dealer ty car h
    simp only [extract_car_from_ajax_tile_data, bind, Option.bind_eq_some] at h
    obtain ⟨df, hdf, images, hi, useTrim, hut, u, hchk, u2, hpr, hmk⟩ := h
    obtain ⟨ht1, ht2, ht3⟩ := checkBasicInfo_inv hchk
    obtain ⟨hm1, hm2, _, hy1, _, _, _, _⟩ :=
      mkScrapedCar_inv _ _ _ _ _ _ _ _ _ _ _ hmk
    exact ⟨strField_truthy hm1 ht1, strField_truthy hm2 ht2, by omega⟩

/-- C1 witness: the amended validation rule applied at `c1Payload`. -/
theorem c1_validation_rule_witness :
    c1Car.make ≠ "" ∧ c1Car.model ≠ "" ∧ c1Car.year ≠ 0 :=
  c1_validation_rule.1 c1Payload "http://listing.example" c1Car (by decide)

/-!
Claim C2.
-/

/-- A `LISTING_USED_STANDARD` search tile with resolvable car data. -/
def tileToyota : JVal := .obj [("type", .str "LISTING_USED_STANDARD"),
  ("data", .obj [("makeName", .str "Toyota"), ("modelName", .str "Camry"),
                 ("carYear", .int 2020)])]

/-- A second `LISTING_USED_STANDARD` search tile. -/
def tileHonda : JVal := .obj [("type", .str "LISTING_USED_STANDARD"),
  ("data", .obj [("makeName", .str "Honda"), ("modelName", .str "Civic"),
                 ("carYear", .int 2021)])]

/-- A search payload carrying an explicit `totalListings` of 163 and two
used-listing tiles (the mocked endpoint of the end-to-end scenario). -/
def searchPayload163 : JVal :=
  .obj [("totalListings", .int 163), ("tiles", .arr [tileToyota, tileHonda])]

/-- Attempts that answer every try with a 200 JSON response carrying
`searchPayload163`. -/
def c2Attempts : Nat → SearchAttempt :=
  fun _ => .resp 200 (.jsonBody (some searchPayload163))

/-- C2 (counterexample): the end-to-end scenario — a page-1 search against a
payload of two `LISTING_USED_STANDARD` tiles — succeeds with exactly 2 cars,
but every car's stats are empty: the generic search path never injects the
`(Condition, Used)` row, because `_extract_cars_from_json_response` hands the
tile data to `_extract_car_from_json_tile` without the tile type and that
extractor builds no stats. -/
theorem c2_no_condition_row_on_search_path :
    (search_inventory c2Attempts 1).1.success = true ∧
    (search_inventory c2Attempts 1).1.cars.length = 2 ∧
    ((search_inventory c2Attempts 1).1.cars.all
      (fun c => c.stats.isEmpty)) = true := by
  decide

/-- C2 (amended): the synthetic `Condition` row derived from the
`LISTING_USED_STANDARD` / `LISTING_NEW_STANDARD` type tag is injected only
on the dealer AJAX path (`_extract_car_from_ajax_tile_data`); on the generic
search JSON path the emitted records carry no stats at all. -/
theorem c2_condition_row :
    (∀ (d : JVal) (dealer : String) (car : ScrapedCar),
      extract_car_from_ajax_tile_data d dealer
        (.str "LISTING_USED_STANDARD") = some car →
      (JVal.str "Condition", JVal.str "Used") ∈ car.stats) ∧
    (∀ (d : JVal) (dealer : String) (car : ScrapedCar),
      extract_car_from_ajax_tile_data d dealer
        (.str "LISTING_NEW_STANDARD") = some car →
      (JVal.str "Condition", JVal.str "New") ∈ car.stats) ∧
    (∀ (d : JVal) (car : ScrapedCar),
      extract_car_from_json_tile d = some car → car.stats = []) := by
  refine ⟨?_, ?_, ?_⟩
  · intro d dealer car h
    simp only [extract_car_from_ajax_tile_data, bind, Option.bind_eq_some] at h
    obtain ⟨df, hdf, images, hi, useTrim, hut, u, hchk, u2, hpr, hmk⟩ := h
    obtain ⟨_, _, _, _, _, _, hst, _⟩ :=
      mkScrapedCar_inv _ _ _ _ _ _ _ _ _ _ _ hmk
    rw [hst]
    rw [if_neg (by decide), if_pos (by decide)]
    simp [List.mem_append]
  · intro d dealer car h
    simp only [extract_car_from_ajax_tile_data, bind, Option.bind_eq_some] at h
    obtain ⟨df, hdf, images, hi, useTrim, hut, u, hchk, u2, hpr, hmk⟩ := h
    obtain ⟨_, _, _, _, _, _, hst, _⟩ :=
      mkScrapedCar_inv _ _ _ _ _ _ _ _ _ _ _ hmk
    rw [hst]
    rw [if_pos (by decide)]
    simp [List.mem_append]
  · intro d car h
    simp only [extract_car_from_json_tile, bind, Option.bind_eq_some] at h
    obtain ⟨df, hdf, hmk⟩ := h
    obtain ⟨_, _, _, _, _, _, hst, _⟩ :=
      mkScrapedCar_inv _ _ _ _ _ _ _ _ _ _ _ hmk
    exact hst

/-- Tile data used to witness the dealer-path condition row. -/
def c2AjaxData : JVal := .obj [("makeName", .str "Toyota"),
  ("modelName", .str "Camry"), ("carYear", .int 2020)]

/-- The record `_extract_car_from_ajax_tile_data` produces from
`c2AjaxData` for a used-listing tile. -/
def c2AjaxCar : ScrapedCar :=
  { make := "Toyota", model := "Camry", year := 2020, price := 0,
    description := "2020 Toyota Camry",
    features := [], stats := [(.str "Condition", .str "Used")],
    images := [], originalUrl := "", fullTitle := "2020 Toyota Camry" }

/-- C2 witness: the condition-row theorem applied at `c2AjaxData`. -/
theorem c2_condition_row_witness :
    (JVal.str "Condition", JVal.str "Used") ∈ c2AjaxCar.stats :=
  c2_condition_row.1 c2AjaxData "317131" c2AjaxCar (by decide)

/-!
Claim C3.
-/

/-- Attempts whose first answer is a 200 response with a malformed JSON
body and whose later answers would succeed. -/
def c3MalformedAttempts : Nat → SearchAttempt :=
  fun i => if i = 0 then .resp 200 (.jsonBody none)
    else .resp 200 (.jsonBody (some searchPayload163))

/-- C3 (counterexample): `search_inventory` does NOT retry a malformed-body
failure: a 200 response whose JSON body fails to parse is returned as a
terminal failure with no backoff sleeps, even though the very next attempt
(third conjunct) would have succeeded. -/
theorem c3_malformed_body_not_retried :
    (search_inventory c3MalformedAttempts 1).1.success = false ∧
    (search_inventory c3MalformedAttempts 1).2 = [] ∧
    ((searchStep (c3MalformedAttempts 1) 1).map
      (fun r => r.success)) = some true := by
  decide

/-- C3 (amended): both fetch loops make at most 3 attempts (they depend
only on attempts 0–2, fourth and fifth conjuncts) with a wait of
`2 ^ attempt` seconds between attempts and none after the last; a loop
failing on attempts 1 and 2 and succeeding on attempt 3 returns the
successful payload after waits of exactly 1s and 2s (first and second
conjuncts) — for `_fetch_json_data` a non-200 status, timeout, transport
error, malformed body, and a body without the `listing` key all count as
retriable attempt failures, but in `search_inventory` any 200 response
terminates the loop immediately (third conjunct), so its malformed-body
and zero-car failures are returned without being retried. -/
theorem c3_retry_backoff :
    (∀ (a : Nat → DetailAttempt) (p : JVal),
      detailStep (a 0) = none → detailStep (a 1) = none →
      detailStep (a 2) = some p →
      fetch_json_data a = (some p, [1, 2])) ∧
    (∀ (a : Nat → SearchAttempt) (page : Int) (r : InvResult),
      searchStep (a 0) page = none → searchStep (a 1) page = none →
      searchStep (a 2) page = some r →
      search_inventory a page = (r, [1, 2])) ∧
    (∀ (a : Nat → SearchAttempt) (page : Int) (r : InvResult),
      searchStep (a 0) page = some r →
      search_inventory a page = (r, [])) ∧
    (∀ a b : Nat → DetailAttempt,
      a 0 = b 0 → a 1 = b 1 → a 2 = b 2 →
      fetch_json_data a = fetch_json_data b) ∧
    (∀ (a b : Nat → SearchAttempt) (page : Int),
      a 0 = b 0 → a 1 = b 1 → a 2 = b 2 →
      search_inventory a page = search_inventory b page) := by
  refine ⟨?_, ?_, ?_, ?_, ?_⟩
  · intro a p h0 h1 h2
    simp [fetch_json_data, attemptLoop, h0, h1, h2]
  · intro a page r h0 h1 h2
    simp [search_inventory, attemptLoop, h0, h1, h2]
  · intro a page r h0
    simp [search_inventory, attemptLoop, h0]
  · intro a b h0 h1 h2
    simp [fetch_json_data, attemptLoop, h0, h1, h2]
  · intro a b page h0 h1 h2
    simp [search_inventory, attemptLoop, h0, h1, h2]

/-- Attempts failing with transport errors on tries 1 and 2 and succeeding
on try 3. -/
def c3RecoverAttempts : Nat → SearchAttempt :=
  fun i => if i < 2 then .netFail
    else .resp 200 (.jsonBody (some searchPayload163))

/-- C3 witness: a search that fails twice and succeeds on the third attempt
returns the successful result with backoff waits of 1s and 2s. -/
theorem c3_retry_backoff_witness :
    search_inventory c3RecoverAttempts 4 =
      (searchSuccess (extract_cars_from_json_response searchPayload163) 4,
       [1, 2]) :=
  c3_retry_backoff.2.1 c3RecoverAttempts 4 _ (by decide) (by decide) (by decide)

/-!
Claim C4.
-/

/-- Modelled from the spec's words (C4): the value of an explicit
`listingId=<digits>` query parameter — the digits after `listingId=`,
ending at the first `&` or `#` that follows (whichever comes first) or at
the end of the URL. -/
def specListingIdParam (url : List Char) : Option (List Char) := do
  let i ← subFind ("listingId=".toList) url
  let v := (url.drop (i + 10)).takeWhile (fun c => c ≠ '&' ∧ c ≠ '#')
  if v ≠ [] ∧ v.all Char.isDigit then some v else none

/-- A URL whose `listingId=123456` parameter is terminated by `#` while the
fragment contains a later `&`, and whose path contains another digit run. -/
def c4Url : String :=
  "https://www.cargurus.com/Cars/7777777/x?listingId=123456#f&b"

/-- C4 (counterexample): `c4Url` contains an explicit `listingId=123456`
query parameter (first conjunct, via the spec-worded reading), yet
`_extract_listing_id` returns the unrelated path digits `7777777`: its
parameter pattern cuts the value at the first `&` anywhere after the
parameter — here inside the fragment — before considering `#`, so the
pattern fails its digit test and the ≥6-digit heuristic fallback wins. -/
theorem c4_fragment_ampersand_counterexample :
    specListingIdParam c4Url.toList = some ("123456".toList) ∧
    extract_listing_id c4Url = some "7777777" := by
  decide

/-- C4 (amended): whenever the code's parameter rule — the value after the
first `listingId=`, cut at the first `&` anywhere after it, else at the
first `#`, else at the end — yields a non-empty digit string, the cascade
returns exactly those digits: the pattern is tried first, so no later
pattern (in particular the ≥6-digit heuristic and its
`_is_likely_not_listing_id` filter) can pre-empt it.  The rule differs from
"the URL contains a listingId query parameter" only when a `#`-terminated
value is followed by a later `&` (see the counterexample). -/
theorem c4_listing_id_param_priority :
    ∀ (url : String) (v : List Char),
      listingIdParamPattern url.toList = some v →
      extract_listing_id url = some (String.mk v) := by
  intro url v h
  have h2 : listingIdParamPattern url.data = some v := h
  simp only [extract_listing_id, extract_listing_id_chars, String.toList,
    Option.map_eq_some', h2, Option.some_orElse]
  exact ⟨v, rfl, rfl⟩

/-- A URL containing both a year-shaped token (`year=2023`) and an explicit
`listingId=` parameter. -/
def c4WitnessUrl : String :=
  "https://www.cargurus.com/Cars/inventorylisting/vdp.action?year=2023&listingId=345678901"

/-- C4 witness: on a URL that also carries a 4-digit year-shaped token, the
explicit parameter wins. -/
theorem c4_listing_id_param_priority_witness :
    extract_listing_id c4WitnessUrl = some (String.mk "345678901".toList) :=
  c4_listing_id_param_priority c4WitnessUrl _ (by decide)

/-!
Claim C5.
-/

/-- A search tile with the given type tag and data object. -/
def mkTile (ty : String) (d : JVal) : JVal :=
  .obj [("type", .str ty), ("data", d)]

/-- A search payload with the given tiles. -/
def mkTilesPayload (ts : List JVal) : JVal := .obj [("tiles", .arr ts)]

/-- A tile whose type begins with `LISTING_` but is neither of the two
standard listing types. -/
def featuredTile : JVal := mkTile "LISTING_FEATURED"
  (.obj [("makeName", .str "Ford"), ("modelName", .str "F-150"),
         ("carYear", .int 2019)])

/-- A `MERCH` tile whose data carries all three car-identifying keys. -/
def merchCarTile : JVal := mkTile "MERCH"
  (.obj [("makeName", .str "Kia"), ("modelName", .str "Soul"),
         ("carYear", .int 2022)])

/-- C5 (counterexample): the same two tiles — a `LISTING_FEATURED` tile and
a `MERCH` tile with car-identifying keys — yield two cars on the generic
search JSON path but none on the dealer AJAX path, so the classification
rule does not hold identically on both paths. -/
theorem c5_paths_classify_differently :
    (extract_cars_from_json_response
      (mkTilesPayload [featuredTile, merchCarTile])).length = 2 ∧
    (extract_cars_from_ajax_json
      (mkTilesPayload [featuredTile, merchCarTile]) "317131").length = 0 := by
  decide

/-- C5 (amended): the claimed classification — `LISTING_` prefix, or `MERCH`
with at least one of `makeName`/`modelName`/`carYear` in the data — governs
only the generic search JSON path (second conjunct); the dealer AJAX path
extracts a tile only when its type is exactly `LISTING_USED_STANDARD` or
`LISTING_NEW_STANDARD` (first conjunct), skipping `MERCH` tiles
unconditionally and every other `LISTING_*` type. -/
theorem c5_tile_classification :
    (∀ (dealer ty : String) (d : JVal) (car : ScrapedCar),
      processAjaxTile dealer (mkTile ty d) = some car →
      ty = "LISTING_USED_STANDARD" ∨ ty = "LISTING_NEW_STANDARD") ∧
    (∀ (ty : String) (d : JVal) (car : ScrapedCar),
      processJsonTile (mkTile ty d) = some car →
      pyStartsWith ty "LISTING_" = true ∨
      (ty = "MERCH" ∧ (pyIn (.str "makeName") d = some true ∨
        pyIn (.str "modelName") d = some true ∨
        pyIn (.str "carYear") d = some true))) := by
  constructor
  · intro dealer ty d car h
    simp only [processAjaxTile, mkTile, JVal.getObj, bind,
      Option.bind_eq_some, Option.some.injEq] at h
    obtain ⟨tf, htf, u, hg, hext⟩ := h
    subst htf
    have hb := boolGuard_inv hg
    have hty : dGetD [("type", JVal.str ty), ("data", d)] "type" .null
        = .str ty := rfl
    rw [hty] at hb
    simp only [Bool.or_eq_true, beq_iff_eq, JVal.str.injEq] at hb
    exact hb
  · intro ty d car h
    simp only [processJsonTile, mkTile, JVal.getObj, bind,
      Option.bind_eq_some, Option.some.injEq] at h
    obtain ⟨isL, hisL, u, hg, hext⟩ := h
    have hb := boolGuard_inv hg
    simp only [Bool.and_eq_true] at hb
    obtain ⟨hbl, hbd⟩ := hb
    subst hbl
    have hd : dGetD [("type", JVal.str ty), ("data", d)] "data" (.obj [])
        = d := rfl
    have htyj : dGetD [("type", JVal.str ty), ("data", d)] "type" (.str "")
        = .str ty := rfl
    rw [hd, htyj] at hisL
    obtain ⟨m, hm, hrest⟩ := hisL
    have hmty : m = ty := by simpa [strField] using hm.symm
    subst hmty
    by_cases hs : pyStartsWith m "LISTING_" = true
    · exact Or.inl hs
    · rw [if_neg hs] at hrest
      by_cases hmerch : (m == "MERCH") = true ∧ d.truthy = true
      · rw [if_pos hmerch] at hrest
        simp only [bind, Option.bind_eq_some] at hrest
        obtain ⟨b1, hb1, h1⟩ := hrest
        refine Or.inr ⟨by simpa [beq_iff_eq] using hmerch.1, ?_⟩
        cases b1
        · rw [if_neg (by simp)] at h1
          simp only [Option.bind_eq_some] at h1
          obtain ⟨b2, hb2, h2⟩ := h1
          cases b2
          · rw [if_neg (by simp)] at h2
            exact Or.inr (Or.inr h2)
          · exact Or.inr (Or.inl hb2)
        · exact Or.inl hb1
      · rw [if_neg hmerch] at hrest
        simp at hrest

/-- Data of a used-listing tile used to witness the AJAX classification. -/
def c5UsedData : JVal := .obj [("makeName", .str "Mazda"),
  ("modelName", .str "CX-5"), ("carYear", .int 2018)]

/-- The record the AJAX path extracts from `c5UsedData`. -/
def c5UsedCar : ScrapedCar :=
  { make := "Mazda", model := "CX-5", year := 2018, price := 0,
    description := "2018 Mazda CX-5", features := [],
    stats := [(.str "Condition", .str "Used")], images := [],
    originalUrl := "", fullTitle := "2018 Mazda CX-5" }

/-- The record the generic path extracts from the `featuredTile` data. -/
def c5FeaturedCar : ScrapedCar :=
  { make := "Ford", model := "F-150", year := 2019, price := 0,
    description := "2019 Ford F-150", features := [], stats := [],
    images := [placeholderImageUrl],
    originalUrl := "https://www.cargurus.com/Cars",
    fullTitle := "2019 Ford F-150" }

/-- C5 witness: the classification theorem applied to a concrete extracted
tile on each path. -/
theorem c5_tile_classification_witness :
    ("LISTING_USED_STANDARD" = "LISTING_USED_STANDARD" ∨
     "LISTING_USED_STANDARD" = "LISTING_NEW_STANDARD") ∧
    (pyStartsWith "LISTING_FEATURED" "LISTING_" = true ∨
     ("LISTING_FEATURED" = "MERCH" ∧
      (pyIn (.str "makeName") (.obj [("makeName", .str "Ford"),
        ("modelName", .str "F-150"), ("carYear", .int 2019)]) = some true ∨
       pyIn (.str "modelName") (.obj [("makeName", .str "Ford"),
        ("modelName", .str "F-150"), ("carYear", .int 2019)]) = some true ∨
       pyIn (.str "carYear") (.obj [("makeName", .str "Ford"),
        ("modelName", .str "F-150"), ("carYear", .int 2019)]) = some true))) :=
  ⟨c5_tile_classification.1 "317131" "LISTING_USED_STANDARD" c5UsedData
     c5UsedCar (by decide),
   c5_tile_classification.2 "LISTING_FEATURED"
     (.obj [("makeName", .str "Ford"), ("modelName", .str "F-150"),
            ("carYear", .int 2019)]) c5FeaturedCar (by decide)⟩

/-!
Claim C6.
-/

/-- C6: with a 200 landing page, extracted parameters, a 200 AJAX response
whose JSON yields cars, and a positive extracted total `t`,
`scrape_dealer_page` reports `totalPages = max 1 (⌈t / 23⌉)` (the dealer
page-size constant is 23) and `hasNextPage` exactly when the requested page
is below it; for `t = 163` this gives `totalPages = 8`. -/
theorem c6_dealer_pagination :
    ∀ (j : JVal) (fb : List ScrapedCar) (dealer : String) (page : Int),
      dealer_cars (some j) fb dealer ≠ [] →
      0 < extract_total_cars_from_ajax_response j →
      ((scrape_dealer_page 200 true 200 (some j) fb dealer page).totalPages
         = max 1 ((extract_total_cars_from_ajax_response j + 22) / 23) ∧
       ((scrape_dealer_page 200 true 200 (some j) fb dealer page).hasNextPage
          = true ↔
        page < (scrape_dealer_page 200 true 200 (some j) fb dealer
          page).totalPages) ∧
       (extract_total_cars_from_ajax_response j = 163 →
        (scrape_dealer_page 200 true 200 (some j) fb dealer page).totalPages
          = 8)) := by
  intro j fb dealer page hn ht
  have hie : (dealer_cars (some j) fb dealer).isEmpty = false := by
    rcases hcc : dealer_cars (some j) fb dealer with _ | ⟨a, l⟩
    · exact absurd hcc hn
    · rfl
  simp only [scrape_dealer_page, hie, ne_eq, if_pos ht, Bool.false_eq_true,
    if_false, Bool.not_true, reduceCtorEq, ite_false, ite_true, not_true,
    ite_self, if_neg not_false]
  refine ⟨trivial, by simp [decide_eq_true_iff], ?_⟩
  · intro h163
    simp only [h163]
    decide

/-- C6 witness: the pagination theorem at `totalListings = 163`, pages 7
and 8: `totalPages = ⌈163 / 23⌉ = 8`, a next page exists from page 7 and
none from page 8. -/
theorem c6_dealer_pagination_witness :
    ((scrape_dealer_page 200 true 200 (some searchPayload163) [] "317131"
        7).totalPages = max 1 ((extract_total_cars_from_ajax_response
          searchPayload163 + 22) / 23) ∧
     ((scrape_dealer_page 200 true 200 (some searchPayload163) [] "317131"
        7).hasNextPage = true ↔
      7 < (scrape_dealer_page 200 true 200 (some searchPayload163) []
        "317131" 7).totalPages) ∧
     (extract_total_cars_from_ajax_response searchPayload163 = 163 →
      (scrape_dealer_page 200 true 200 (some searchPayload163) [] "317131"
        7).totalPages = 8)) ∧
    ((scrape_dealer_page 200 true 200 (some searchPayload163) [] "317131"
        8).totalPages = max 1 ((extract_total_cars_from_ajax_response
          searchPayload163 + 22) / 23) ∧
     ((scrape_dealer_page 200 true 200 (some searchPayload163) [] "317131"
        8).hasNextPage = true ↔
      8 < (scrape_dealer_page 200 true 200 (some searchPayload163) []
        "317131" 8).totalPages) ∧
     (extract_total_cars_from_ajax_response searchPayload163 = 163 →
      (scrape_dealer_page 200 true 200 (some searchPayload163) [] "317131"
        8).totalPages = 8)) :=
  ⟨c6_dealer_pagination searchPayload163 [] "317131" 7 (by decide) (by decide),
   c6_dealer_pagination searchPayload163 [] "317131" 8 (by decide) (by decide)⟩

/-!
Claim C7.
-/

/-- C7 (counterexample): a generic search payload that carries an explicit
top-level `totalListings = 163` (first conjunct, read by the code's own
total extractor) still produces `totalResults = 40 = 20 × 2`: the generic
search path never consults the explicit count. -/
theorem c7_explicit_total_ignored_on_search :
    extract_total_cars_from_ajax_response searchPayload163 = 163 ∧
    (search_inventory c2Attempts 1).1.totalResults = 40 := by
  decide

/-- C7 (amended): only the dealer path honors an explicit `totalListings`
count (top-level or through the `srpTrackingData.defaultSRPListingCount`
fallback): its `totalResults` equals the extracted positive count (first
conjunct).  The generic search path always estimates
`totalResults = 20 × cars found` from the assumed generic page size 20,
whether or not the payload carries an explicit count (second conjunct). -/
theorem c7_total_sources :
    (∀ (j : JVal) (fb : List ScrapedCar) (dealer : String) (page : Int),
      dealer_cars (some j) fb dealer ≠ [] →
      0 < extract_total_cars_from_ajax_response j →
      (scrape_dealer_page 200 true 200 (some j) fb dealer page).totalResults
        = extract_total_cars_from_ajax_response j) ∧
    (∀ (a : Nat → SearchAttempt) (page : Int) (j : JVal),
      a 0 = .resp 200 (.jsonBody (some j)) →
      extract_cars_from_json_response j ≠ [] →
      (search_inventory a page).1.totalResults
        = 20 * (extract_cars_from_json_response j).length) := by
  constructor
  · intro j fb dealer page hn ht
    have hie : (dealer_cars (some j) fb dealer).isEmpty = false := by
      rcases hcc : dealer_cars (some j) fb dealer with _ | ⟨a, l⟩
      · exact absurd hcc hn
      · rfl
    simp only [scrape_dealer_page, hie, ne_eq, if_pos ht, Bool.false_eq_true,
      if_false, Bool.not_true, reduceCtorEq, ite_false, ite_true, not_true,
      ite_self, if_neg not_false]
  · intro a page j h0 hn
    have hie : (extract_cars_from_json_response j).isEmpty = false := by
      rcases hcc : extract_cars_from_json_response j with _ | ⟨c, l⟩
      · exact absurd hcc hn
      · rfl
    simp only [search_inventory, attemptLoop, h0, searchStep, hie,
      Bool.false_eq_true, if_false, reduceIte, searchSuccess]
    ring

/-- C7 witness: the totals theorem applied on both paths to the payload
with `totalListings = 163`. -/
theorem c7_total_sources_witness :
    (scrape_dealer_page 200 true 200 (some searchPayload163) [] "317131"
      2).totalResults = extract_total_cars_from_ajax_response searchPayload163
    ∧ (search_inventory c2Attempts 5).1.totalResults
        = 20 * (extract_cars_from_json_response searchPayload163).length :=
  ⟨c7_total_sources.1 searchPayload163 [] "317131" 2 (by decide) (by decide),
   c7_total_sources.2 c2Attempts 5 searchPayload163 rfl (by decide)⟩

/-!
Claim C10.
-/

theorem c10_loop_aux (step : Nat → Option InvResult)
    (failed : InvResult) (P : InvResult → Prop)
    (hstep : ∀ i r, step i = some r → P r) (hfail : P failed) :
    ∀ l : List Nat, P (attemptLoop step failed l).1 := by
  intro l
  induction l with
  | nil => exact hfail
  | cons i rest ih =>
    simp only [attemptLoop]
    cases hs : step i with
    | some r => exact hstep i r hs
    | none =>
      cases rest with
      | nil => simpa using hfail
      | cons b bs => simpa using ih

/-- C10: every `InventorySearchResult` returned by `search_inventory` and by
`scrape_dealer_page` has `hasPreviousPage = False`, for every attempt
behaviour and every requested page: the field's default is never
overridden by any code path. -/
theorem c10_no_previous_page :
    (∀ (a : Nat → SearchAttempt) (page : Int),
      (search_inventory a page).1.hasPreviousPage = false) ∧
    (∀ (initialStatus : Nat) (paramsOk : Bool) (ajaxStatus : Nat)
       (ajaxJson : Option JVal) (fb : List ScrapedCar) (dealer : String)
       (page : Int),
      (scrape_dealer_page initialStatus paramsOk ajaxStatus ajaxJson fb
        dealer page).hasPreviousPage = false) := by
  constructor
  · intro a page
    refine c10_loop_aux _ _ (fun r => r.hasPreviousPage = false) ?_ rfl _
    intro i r hs
    cases att : a i with
    | netFail => rw [att] at hs; simp [searchStep] at hs
    | resp status body =>
      rw [att] at hs
      by_cases h200 : status = 200
      · subst h200
        cases body with
        | jsonBody parsed =>
          cases parsed with
          | some j =>
            simp only [searchStep, if_pos rfl] at hs
            by_cases he : (extract_cars_from_json_response j).isEmpty
            · rw [if_pos he] at hs
              cases hs; rfl
            · rw [if_neg he] at hs
              cases hs; rfl
          | none =>
            simp only [searchStep, if_pos rfl] at hs
            cases hs; rfl
        | htmlBody cars =>
          simp only [searchStep, if_pos rfl] at hs
          by_cases he : cars.isEmpty
          · rw [if_pos he] at hs
            cases hs; rfl
          · rw [if_neg he] at hs
            cases hs; rfl
      · simp [searchStep, h200] at hs
  · intro st pOk ast aj fb dealer page
    unfold scrape_dealer_page
    split
    · rfl
    split
    · rfl
    split
    · rfl
    dsimp only
    split
    · rfl
    split
    · rfl
    · rfl

/-!
Claim C8.
-/

/-- The raw sequence of `picture.get("url")` values of a listing's
`pictures` array, before truthiness filtering and de-duplication. -/
def urlsOfPictures : List JVal → Option (List JVal)
  | [] => some []
  | p :: ps => do
    let f ← p.getObj
    let us ← urlsOfPictures ps
    pure (dGetD f "url" .null :: us)

/-- The raw picture-URL sequence of a listing. -/
def rawPictureUrls (listing : List (String × JVal)) : Option (List JVal) := do
  let ps ← pyIter (dGetD listing "pictures" (.arr []))
  urlsOfPictures ps

theorem collectImages_eq :
    ∀ (ps : List JVal) (acc : List JVal),
      collectImages acc ps
        = (urlsOfPictures ps).map (fun us => us.foldl appendImage acc) := by
  intro ps
  induction ps with
  | nil => intro acc; rfl
  | cons p ps ih =>
    intro acc
    cases hf : p.getObj with
    | none => simp [collectImages, urlsOfPictures, hf]
    | some f =>
      simp only [collectImages, urlsOfPictures, hf, Option.some_bind, bind,
        Option.bind_eq_bind, ih]
      cases hu : urlsOfPictures ps with
      | none => rfl
      | some us => simp [List.foldl_cons]

theorem foldl_appendImage_nodup :
    ∀ (us acc : List JVal), acc.Nodup → (us.foldl appendImage acc).Nodup := by
  intro us
  induction us with
  | nil => intro acc h; exact h
  | cons u us ih =>
    intro acc h
    simp only [List.foldl_cons]
    apply ih
    unfold appendImage
    split
    next hc => simp [List.nodup_append, h, hc.2]
    next hc => exact h

theorem foldl_appendImage_sublist :
    ∀ (us acc : List JVal),
      (us.foldl appendImage acc).Sublist (acc ++ us.filter JVal.truthy) := by
  intro us
  induction us with
  | nil => intro acc; simp
  | cons u us ih =>
    intro acc
    simp only [List.foldl_cons]
    by_cases hc : (u.truthy = true ∧ u ∉ acc)
    · have ha : appendImage acc u = acc ++ [u] := by
        simp [appendImage, hc]
      rw [ha, List.filter_cons, if_pos hc.1]
      simpa [List.append_assoc] using ih (acc ++ [u])
    · have ha : appendImage acc u = acc := by
        simp only [appendImage, if_neg hc]
      rw [ha]
      by_cases ht : JVal.truthy u = true
      · rw [List.filter_cons, if_pos ht]
        exact (ih acc).trans
          (List.Sublist.append_left (List.sublist_cons_self _ _) acc)
      · rw [List.filter_cons, if_neg ht]
        exact ih acc

theorem mem_foldl_appendImage :
    ∀ (us acc : List JVal) (u : JVal),
      (u ∈ acc ∨ (u ∈ us ∧ u.truthy = true)) →
      u ∈ us.foldl appendImage acc := by
  intro us
  induction us with
  | nil =>
    intro acc u h
    rcases h with h | ⟨h, _⟩
    · exact h
    · simp at h
  | cons v us ih =>
    intro acc u h
    simp only [List.foldl_cons]
    have hacc : ∀ w, w ∈ acc → w ∈ appendImage acc v := by
      intro w hw
      unfold appendImage
      split
      · exact List.mem_append_left _ hw
      · exact hw
    rcases h with h | ⟨h, htr⟩
    · exact ih _ u (Or.inl (hacc u h))
    · rcases List.mem_cons.mp h with rfl | h
      · refine ih _ u (Or.inl ?_)
        unfold appendImage
        split
        next hc => exact List.mem_append_right _ (by simp)
        next hc =>
          rcases not_and_or.mp hc with hc1 | hc2
          · exact absurd htr (by simpa using hc1)
          · simpa using not_not.mp hc2
      · exact ih _ u (Or.inr ⟨h, htr⟩)

/-- C8: the image list extracted from a detail payload is never empty and
contains no duplicates; when no (truthy) picture URL is found it is exactly
the fixed placeholder, and otherwise it is an order-preserving subsequence
of the found URLs containing every one of them — de-duplication by exact
equality, keeping first-seen order. -/
theorem c8_images_dedup :
    ∀ (listing : List (String × JVal)) (us imgs : List JVal),
      rawPictureUrls listing = some us →
      extract_images_from_json listing = some imgs →
      imgs ≠ [] ∧ imgs.Nodup ∧
      (us.filter JVal.truthy = [] → imgs = [JVal.str placeholderImageUrl]) ∧
      (us.filter JVal.truthy ≠ [] →
        imgs.Sublist (us.filter JVal.truthy) ∧
        ∀ u, u ∈ us.filter JVal.truthy → u ∈ imgs) := by
  intro listing us imgs hraw hext
  simp only [rawPictureUrls, bind, Option.bind_eq_some] at hraw
  obtain ⟨ps, hps, hurls⟩ := hraw
  simp only [extract_images_from_json, bind, Option.bind_eq_some,
    Option.pure_def, Option.some.injEq] at hext
  obtain ⟨ps2, hps2, collected, hcol, himgs⟩ := hext
  rw [hps] at hps2
  cases hps2
  rw [collectImages_eq, hurls] at hcol
  simp only [Option.map_some', Option.some.injEq] at hcol
  subst hcol
  subst himgs
  have hnodup := foldl_appendImage_nodup us [] (List.nodup_nil)
  have hsub := foldl_appendImage_sublist us []
  simp only [List.nil_append] at hsub
  by_cases hie : (us.foldl appendImage []).isEmpty = true
  · have hcoll_nil : us.foldl appendImage [] = [] :=
      List.isEmpty_iff.mp hie
    rw [if_pos hie]
    refine ⟨by simp, List.nodup_singleton _, fun _ => rfl, ?_⟩
    intro hne
    exfalso
    rcases List.exists_mem_of_ne_nil _ hne with ⟨u, hu⟩
    have hmem := mem_foldl_appendImage us [] u
      (Or.inr ⟨(List.mem_filter.mp hu).1, (List.mem_filter.mp hu).2⟩)
    rw [hcoll_nil] at hmem
    simp at hmem
  · rw [if_neg hie]
    have hne : us.foldl appendImage [] ≠ [] := by
      intro hx
      rw [hx] at hie
      simp at hie
    refine ⟨hne, hnodup, ?_, ?_⟩
    · intro hfe
      rw [hfe] at hsub
      exact absurd (List.sublist_nil.mp hsub) hne
    · intro hfne
      refine ⟨hsub, ?_⟩
      intro u hu
      exact mem_foldl_appendImage us [] u
        (Or.inr ⟨(List.mem_filter.mp hu).1, (List.mem_filter.mp hu).2⟩)

/-- A listing whose pictures carry a duplicated URL. -/
def c8Listing : List (String × JVal) :=
  [("pictures", .arr [.obj [("url", .str "http://img/a.jpg")],
                      .obj [("url", .str "http://img/b.jpg")],
                      .obj [("url", .str "http://img/a.jpg")]])]

/-- C8 witness: on two picture entries with the same URL the extracted
sequence keeps that URL exactly once, in first-seen order. -/
theorem c8_images_dedup_witness :
    [JVal.str "http://img/a.jpg", JVal.str "http://img/b.jpg"] ≠ [] ∧
    List.Nodup [JVal.str "http://img/a.jpg", JVal.str "http://img/b.jpg"] ∧
    (([JVal.str "http://img/a.jpg", JVal.str "http://img/b.jpg",
       JVal.str "http://img/a.jpg"].filter JVal.truthy) = [] →
      [JVal.str "http://img/a.jpg", JVal.str "http://img/b.jpg"]
        = [JVal.str placeholderImageUrl]) ∧
    (([JVal.str "http://img/a.jpg", JVal.str "http://img/b.jpg",
       JVal.str "http://img/a.jpg"].filter JVal.truthy) ≠ [] →
      List.Sublist [JVal.str "http://img/a.jpg", JVal.str "http://img/b.jpg"]
        ([JVal.str "http://img/a.jpg", JVal.str "http://img/b.jpg",
          JVal.str "http://img/a.jpg"].filter JVal.truthy) ∧
      ∀ u, u ∈ ([JVal.str "http://img/a.jpg", JVal.str "http://img/b.jpg",
        JVal.str "http://img/a.jpg"].filter JVal.truthy) →
        u ∈ [JVal.str "http://img/a.jpg", JVal.str "http://img/b.jpg"]) :=
  c8_images_dedup c8Listing _ _ (by decide) (by decide)

/-!
Claim C9.
-/

theorem intercalate_space3 (a b c : String) :
    String.intercalate " " [a, b, c] = a ++ " " ++ b ++ " " ++ c := by
  simp [String.intercalate, String.intercalate.go]

theorem intercalate_space4 (a b c d : String) :
    String.intercalate " " [a, b, c, d]
      = a ++ " " ++ b ++ " " ++ c ++ " " ++ d := by
  simp [String.intercalate, String.intercalate.go]

/-- The resolved title components of the detail path: year, make and model
with their `autoEntityInfo`-first lookup, the trim cascade's result, and
whether the `trim and trim.strip()` test admits the trim. -/
def detailTitleParts (json_data : JVal) :
    Option (JVal × JVal × JVal × JVal × Bool) := do
  let jd ← json_data.getObj
  let listing ← (dGetD jd "listing" (.obj [])).getObj
  let auto0 ← (dGetD listing "autoEntityInfo" (.obj [])).getObj
  let year := (dGet auto0 "year").getD (dGetD listing "year" (.int 0))
  let make := (dGet auto0 "make").getD
    (dGetD listing "makeName" (.str "Unknown"))
  let model := (dGet auto0 "model").getD
    (dGetD listing "modelName" (.str "Unknown"))
  let trim ← resolve_trim listing auto0
  let useTrim ← pyTrimNonempty trim
  pure (year, make, model, trim, useTrim)

/-- The resolved title components of the AJAX tile path. -/
def ajaxTitleParts (car_data : JVal) :
    Option (JVal × JVal × JVal × JVal × Bool) := do
  let d ← car_data.getObj
  let year := dGetD d "carYear" (.int 0)
  let make := dGetD d "makeName" (.str "")
  let model := dGetD d "modelName" (.str "")
  let trim := dGetD d "trimName" (.str "")
  let useTrim ← pyTrimNonempty trim
  pure (year, make, model, trim, useTrim)

/-- The whitespace-stripped single-space join of the formatted title
components, with the raw trim appended only when admitted. -/
def strippedJoinTitle (year make model trim : JVal) (useTrim : Bool) :
    String :=
  if useTrim then
    pyStripString
      (String.intercalate " " [year.fmt, make.fmt, model.fmt, trim.fmt])
  else
    pyStripString (String.intercalate " " [year.fmt, make.fmt, model.fmt])

/-- C9 counterexample input: the trim resolves to `" LE"` — non-empty after
trimming whitespace — but is embedded unstripped in the title. -/
def c9Payload : JVal := .obj [("listing", .obj [("autoEntityInfo",
  .obj [("year", .int 2020), ("make", .str "Toyota"),
        ("model", .str "Camry"), ("trim", .str " LE")])])]

/-- C9 (counterexample): with a trim of `" LE"` (non-empty after trimming)
the emitted `fullTitle` is `"2020 Toyota Camry  LE"` — the raw trim is
embedded, giving a double space — which differs from the claim's
single-space join `"2020 Toyota Camry LE"`. -/
theorem c9_double_space_counterexample :
    (extract_car_data_from_json c9Payload "http://u").map
      (fun c => c.fullTitle) = some "2020 Toyota Camry  LE" ∧
    (extract_car_data_from_json c9Payload "http://u").map
      (fun c => c.fullTitle)
      ≠ some (String.intercalate " " ["2020", "Toyota", "Camry", "LE"]) := by
  decide

/-- C9 (amended): on both record-building paths the emitted `fullTitle`
equals the whitespace-STRIPPED single-space join of the formatted resolved
components, with the RAW resolved trim appended exactly when it is truthy
and non-blank — this coincides with the claim's join whenever the
components carry no leading or trailing whitespace, but the final value is
stripped and the trim is embedded unstripped (see the counterexample). -/
theorem c9_full_title :
    (∀ (j : JVal) (url : String) (car : ScrapedCar)
       (y m mo t : JVal) (u : Bool),
      extract_car_data_from_json j url = some car →
      detailTitleParts j = some (y, m, mo, t, u) →
      car.fullTitle = strippedJoinTitle y m mo t u) ∧
    (∀ (d : JVal) (dealer : String) (ty : JVal) (car : ScrapedCar)
       (y m mo t : JVal) (u : Bool),
      extract_car_from_ajax_tile_data d dealer ty = some car →
      ajaxTitleParts d = some (y, m, mo, t, u) →
      car.fullTitle = strippedJoinTitle y m mo t u) := by
  constructor
  · intro j url car y m mo t u hext hparts
    simp only [extract_car_data_from_json, bind, Option.bind_eq_some] at hext
    obtain ⟨jd, hjd, listing, hl, auto0, ha, trim, htr, useTrim, hut,
      features, hf, images, hi, uu, hchk, hmk⟩ := hext
    simp only [detailTitleParts, bind, Option.bind_eq_some, Option.pure_def,
      Option.some.injEq] at hparts
    obtain ⟨jd2, hjd2, listing2, hl2, auto02, ha2, trim2, htr2, useTrim2,
      hut2, htuple⟩ := hparts
    rw [hjd] at hjd2
    cases hjd2
    rw [hl] at hl2
    cases hl2
    rw [ha] at ha2
    cases ha2
    rw [htr] at htr2
    cases htr2
    rw [hut] at hut2
    cases hut2
    simp only [Prod.mk.injEq] at htuple
    obtain ⟨h1, h2, h3, h4, h5⟩ := htuple
    subst h1
    subst h2
    subst h3
    subst h4
    subst h5
    obtain ⟨_, _, _, _, _, hft, _, _⟩ :=
      mkScrapedCar_inv _ _ _ _ _ _ _ _ _ _ _ hmk
    simp only [strField, Option.some.injEq] at hft
    rw [← hft]
    cases useTrim <;>
      simp [strippedJoinTitle, intercalate_space3, intercalate_space4]
  · intro d dealer ty car y m mo t u hext hparts
    simp only [extract_car_from_ajax_tile_data, bind,
      Option.bind_eq_some] at hext
    obtain ⟨df, hdf, images, hi, useTrim, hut, uu, hchk, u2, hpr, hmk⟩ := hext
    simp only [ajaxTitleParts, bind, Option.bind_eq_some, Option.pure_def,
      Option.some.injEq] at hparts
    obtain ⟨df2, hdf2, useTrim2, hut2, htuple⟩ := hparts
    rw [hdf] at hdf2
    cases hdf2
    rw [hut] at hut2
    cases hut2
    simp only [Prod.mk.injEq] at htuple
    obtain ⟨h1, h2, h3, h4, h5⟩ := htuple
    subst h1
    subst h2
    subst h3
    subst h4
    subst h5
    obtain ⟨_, _, _, _, _, hft, _, _⟩ :=
      mkScrapedCar_inv _ _ _ _ _ _ _ _ _ _ _ hmk
    simp only [strField, Option.some.injEq] at hft
    rw [← hft]
    cases useTrim <;>
      simp [strippedJoinTitle, intercalate_space3, intercalate_space4]

/-- A payload whose trim is whitespace-clean. -/
def c9CleanPayload : JVal := .obj [("listing", .obj [("autoEntityInfo",
  .obj [("year", .int 2020), ("make", .str "Toyota"),
        ("model", .str "Camry"), ("trim", .str "LE")])])]

/-- The record extracted from `c9CleanPayload`. -/
def c9CleanCar : ScrapedCar :=
  { make := "Toyota", model := "Camry", year := 2020, price := 0,
    description := "No description available.",
    features := ["Features not available"], stats := [],
    images := [placeholderImageUrl], originalUrl := "http://u",
    fullTitle := "2020 Toyota Camry LE" }

/-- C9 witness: the title theorem applied to a whitespace-clean payload,
where the stripped join is the plain `"{year} {make} {model} {trim}"`. -/
theorem c9_full_title_witness :
    c9CleanCar.fullTitle = strippedJoinTitle (.int 2020) (.str "Toyota")
      (.str "Camry") (.str "LE") true :=
  c9_full_title.1 c9CleanPayload "http://u" c9CleanCar (.int 2020)
    (.str "Toyota") (.str "Camry") (.str "LE") true (by decide) (by decide)

end CarLister
